import Mathlib

/-!
# Verification of the terminal Snake game

A shallow embedding of the core simulation logic of the `simple-snake-rs`
repository.  The files `src/game.rs` and `src/direction.rs` are present and
are translated directly.  The modules `point`, `snake` and `command` are
declared in `src/main.rs` but their source files are absent from the
repository snapshot, so `Point`, `Snake` and `Command` are modelled from the
specification (sections 3, 4.1-4.4).

Machine integers (`u16`) are modelled as `Nat`; the coordinate arithmetic in
the claims under scrutiny stays far below `2^16`, so wrap-around never
matters on the inputs considered.  The terminal I/O (rendering, raw mode)
and the random number generator are external collaborators: the RNG is
replaced by explicit oracle inputs (a stream of candidate food points, the
initial direction), and rendering is not part of the state.
-/

set_option autoImplicit false

namespace SnakeGame

/-- Modelled from the spec: `src/point.rs` is missing from the snapshot.
Spec section 3: a `Point` is `\x7bx: unsigned integer, y: unsigned integer\x7d`. -/
structure Point where
  x : Nat
  y : Nat
deriving DecidableEq, Repr

/-- From `src/direction.rs`: the four-way movement enumeration. -/
inductive Direction where
  | Up
  | Right
  | Down
  | Left
deriving DecidableEq, Repr

/-- From `src/direction.rs`: `Direction::opposite`. -/
def Direction.opposite : Direction → Direction
  | .Up => .Down
  | .Right => .Left
  | .Down => .Up
  | .Left => .Right

/-- Modelled from the spec: `src/point.rs` is missing from the snapshot.
Spec section 4.1: `transform(direction, distance)` translates `distance`
cells along `direction`; Up/Left subtract, Down/Right add.  Subtraction is
`Nat` truncated subtraction; the spec makes the caller responsible for not
underflowing (collision checks run first in the live loop). -/
def Point.transform (p : Point) (d : Direction) (distance : Nat) : Point :=
  match d with
  | .Up => ⟨p.x, p.y - distance⟩
  | .Right => ⟨p.x + distance, p.y⟩
  | .Down => ⟨p.x, p.y + distance⟩
  | .Left => ⟨p.x - distance, p.y⟩

/-- Modelled from the spec: `src/command.rs` is missing from the snapshot.
Spec section 4.3: the two semantic inputs, `Quit` or `Turn(Direction)`. -/
inductive Command where
  | Quit
  | Turn (towards : Direction)
deriving DecidableEq, Repr

/-- Modelled from the spec: `src/snake.rs` is missing from the snapshot.
Spec section 3: an ordered body of points, head-first (index 0 = head),
plus the current heading. -/
structure Snake where
  body : List Point
  direction : Direction
deriving DecidableEq, Repr

/-- Modelled from the spec: `Snake::new` (spec section 4.4) builds the body
by laying `length` points from `start` backward, one cell per segment along
the opposite of the initial direction, clamping the length to at least 1. -/
def Snake.new (start : Point) (length : Nat) (dir : Direction) : Snake :=
  { body := (List.range (max length 1)).map
      (fun i => start.transform dir.opposite i)
    direction := dir }

/-- Modelled from the spec: `Snake::get_head_point` returns `body[0]`
(spec section 4.4); the body is never empty in the live game. -/
def Snake.get_head_point (s : Snake) : Point :=
  s.body.headD ⟨0, 0⟩

/-- Modelled from the spec: `Snake::get_body_points` returns the full
ordered body sequence, head-first (spec section 4.4). -/
def Snake.get_body_points (s : Snake) : List Point :=
  s.body

/-- Modelled from the spec: `Snake::get_direction` (spec section 4.4). -/
def Snake.get_direction (s : Snake) : Direction :=
  s.direction

/-- Modelled from the spec: `Snake::set_direction` sets the heading
unconditionally; legality is the caller's concern (spec section 4.4). -/
def Snake.set_direction (s : Snake) (d : Direction) : Snake :=
  { s with direction := d }

/-- Modelled from the spec: `Snake::contains_point` is true iff some body
segment equals the point (spec section 4.4). -/
def Snake.contains_point (s : Snake) (p : Point) : Bool :=
  decide (p ∈ s.body)

/-- Modelled from the spec: `Snake::slither` computes the new head
`head.transform(direction, 1)`, prepends it and removes the last element;
the body shifts forward one cell, length unchanged (spec section 4.4). -/
def Snake.slither (s : Snake) : Snake :=
  { s with body := (s.get_head_point.transform s.direction 1 :: s.body).dropLast }

/-- Modelled from the spec: `Snake::grow` computes the new head the same
way and prepends it WITHOUT removing the last element; length grows by one
(spec section 4.4). -/
def Snake.grow (s : Snake) : Snake :=
  { s with body := s.get_head_point.transform s.direction 1 :: s.body }

/-- From `src/game.rs` line 14. -/
def MAX_INTERVAL : Nat := 128

/-- From `src/game.rs` line 15. -/
def MIN_INTERVAL : Nat := 32

/-- From `src/game.rs` line 16. -/
def MAX_SPEED : Nat := 8

/-- From `src/game.rs`: the core state of `struct Game`, without the two
terminal-I/O fields (`stdout`, `original_terminal_size`). -/
structure Game where
  width : Nat
  height : Nat
  food : Option Point
  snake : Snake
  speed : Nat
  score : Nat
deriving DecidableEq, Repr

/-- From `src/game.rs` lines 31-52 (`Game::new`): food starts absent, the
snake starts at the board centre with length 3 and a random direction
(modelled as the parameter `dir`), speed and score start at 0. -/
def Game.new (width height : Nat) (dir : Direction) : Game :=
  { width := width
    height := height
    food := none
    snake := Snake.new ⟨width / 2, height / 2⟩ 3 dir
    speed := 0
    score := 0 }

/-- From `src/game.rs` lines 107-112 (`Game::calculate_interval`), in
milliseconds. -/
def Game.calculate_interval (g : Game) : Nat :=
  let speed := MAX_SPEED - g.speed
  MIN_INTERVAL + ((MAX_INTERVAL - MIN_INTERVAL) / MAX_SPEED) * speed

/-- From `src/game.rs` lines 153-162 (`Game::has_collided_with_wall`). -/
def Game.has_collided_with_wall (g : Game) : Bool :=
  let head_point := g.snake.get_head_point
  match g.snake.get_direction with
  | .Up => decide (head_point.y = 0)
  | .Right => decide (head_point.x = g.width - 1)
  | .Down => decide (head_point.y = g.height - 1)
  | .Left => decide (head_point.x = 0)

/-- From `src/game.rs` lines 164-174 (`Game::has_bitten_itself`): the
would-be next head is compared against the body with the last element and
then element 0 removed. -/
def Game.has_bitten_itself (g : Game) : Bool :=
  let next_head_point :=
    g.snake.get_head_point.transform g.snake.get_direction 1
  let next_body_points :=
    ((g.snake.get_body_points).eraseIdx (g.snake.get_body_points.length - 1)).eraseIdx 0
  decide (next_head_point ∈ next_body_points)

/-- From `src/game.rs` lines 176-186 (`Game::place_food`): the RNG is
modelled as an explicit list of candidate points; the loop takes the first
candidate not contained in the snake.  `none` models the case where the
supplied oracle prefix is exhausted (in the source the loop would keep
drawing). -/
def Game.place_food (g : Game) : List Point → Option Game
  | [] => none
  | p :: rest =>
    if g.snake.contains_point p then g.place_food rest
    else some { g with food := some p }

/-- From `src/game.rs` lines 65-79: the input-polling loop of one tick.
`baseline` is the direction read at tick start (line 62); the command
sequence received during the window is processed in order, `Quit` sets the
done flag and breaks, `Turn` is validated against the baseline. -/
def processCommands (baseline : Direction) (s : Snake) : List Command → Snake × Bool
  | [] => (s, false)
  | Command.Quit :: _ => (s, true)
  | Command.Turn towards :: rest =>
    processCommands baseline
      (if baseline != towards && baseline.opposite != towards
       then s.set_direction towards else s)
      rest

/-- The per-tick oracle inputs: the commands received during the tick's
input window, and the RNG stream for a potential food placement. -/
structure TickInput where
  commands : List Command
  foodCands : List Point
deriving DecidableEq, Repr

/-- From `src/game.rs` lines 84-98: the movement-and-consumption phase of a
tick.  `slither` runs unconditionally; if the (post-slither) head equals
the food point, `grow` runs, food is re-placed, the score is incremented
and the speed rule applies.  Returns `none` only when the food-placement
oracle is exhausted. -/
def Game.moveAndEat (g : Game) (cands : List Point) : Option Game :=
  let g2 := { g with snake := g.snake.slither }
  match g2.food with
  | none => some g2
  | some food_point =>
    if g2.snake.get_head_point = food_point then
      let g3 := { g2 with snake := g2.snake.grow }
      match g3.place_food cands with
      | none => none
      | some g4 =>
        let g5 := { g4 with score := g4.score + 1 }
        some (if g5.score % ((g5.width * g5.height) / MAX_SPEED) = 0
              then { g5 with speed := g5.speed + 1 }
              else g5)
    else some g2

/-- From `src/game.rs` lines 60-100: one iteration of the main loop.  The
result pairs the post-tick state with the `done` flag; `none` only when the
food-placement oracle is exhausted.  Note that after a `Quit` the source
still runs the collision check and, absent a collision, the slither/food
phase, before the outer loop observes `done`. -/
def Game.tick (g : Game) (inp : TickInput) : Option (Game × Bool) :=
  let r := processCommands g.snake.get_direction g.snake inp.commands
  let g1 := { g with snake := r.1 }
  if g1.has_collided_with_wall || g1.has_bitten_itself then
    some (g1, true)
  else
    (g1.moveAndEat inp.foodCands).map (fun g2 => (g2, r.2))

/-- Reachable game states: a fresh game after the initial `place_food`
call of `Game::run` (line 55), closed under ticks.  This over-approximates
the states of the live loop (it also steps from states whose tick already
reported `done`), so an invariant proved here holds in particular for the
live loop. -/
inductive Reachable : Game → Prop
  | start (w h : Nat) (d : Direction) (cands : List Point) (g : Game) :
      (Game.new w h d).place_food cands = some g → Reachable g
  | tick (g : Game) (inp : TickInput) (g' : Game) (d : Bool) :
      Reachable g → g.tick inp = some (g', d) → Reachable g'

/-! ### Concrete states used in witnesses and counterexamples -/

/-- The state of a fresh 20×20 game right after the initial `place_food`
with RNG oracle `[(0,0)]`. -/
def gStart : Game :=
  { width := 20, height := 20, food := some ⟨0, 0⟩
    snake := Snake.new ⟨10, 10⟩ 3 Direction.Right
    speed := 0, score := 0 }

/-- A 20-wide game whose snake heads Right with its head at `(19,10)`. -/
def gWall : Game :=
  { width := 20, height := 20, food := none
    snake := ⟨[⟨19, 10⟩, ⟨18, 10⟩, ⟨17, 10⟩], Direction.Right⟩
    speed := 0, score := 0 }

/-- A state used to examine C7 at an intermediate speed level. -/
def gSpeed5 : Game :=
  { width := 20, height := 20, food := none
    snake := Snake.new ⟨10, 10⟩ 3 Direction.Right
    speed := 5, score := 0 }

/-- A state one cell away from the food, heading Right. -/
def cexG1 : Game :=
  { width := 20, height := 20, food := some ⟨6, 5⟩
    snake := ⟨[⟨5, 5⟩, ⟨4, 5⟩, ⟨3, 5⟩], Direction.Right⟩
    speed := 0, score := 0 }

/-- The movement-phase result of `cexG1` with RNG oracle `[(0,0)]`. -/
def cexG1eat : Game :=
  { width := 20, height := 20, food := some ⟨0, 0⟩
    snake := ⟨[⟨7, 5⟩, ⟨6, 5⟩, ⟨5, 5⟩, ⟨4, 5⟩], Direction.Right⟩
    speed := 0, score := 1 }

/-- A state one cell from the food with speed already at `MAX_SPEED` and
the score one short of a multiple of `(20*20)/MAX_SPEED = 50`. -/
def cexG2 : Game :=
  { width := 20, height := 20, food := some ⟨6, 5⟩
    snake := ⟨[⟨5, 5⟩, ⟨4, 5⟩, ⟨3, 5⟩], Direction.Right⟩
    speed := 8, score := 49 }

/-- The movement-phase result of `cexG2` with RNG oracle `[(0,0)]`. -/
def cexG2eat : Game :=
  { width := 20, height := 20, food := some ⟨0, 0⟩
    snake := ⟨[⟨7, 5⟩, ⟨6, 5⟩, ⟨5, 5⟩, ⟨4, 5⟩], Direction.Right⟩
    speed := 9, score := 50 }

/-- A mid-board state, food far away, used for the quit-tick analysis. -/
def cexG3 : Game :=
  { width := 20, height := 20, food := some ⟨0, 0⟩
    snake := ⟨[⟨5, 5⟩, ⟨4, 5⟩, ⟨3, 5⟩], Direction.Right⟩
    speed := 0, score := 0 }

/-- The state after the tick of `cexG3` that received a `Quit`. -/
def cexG3after : Game :=
  { width := 20, height := 20, food := some ⟨0, 0⟩
    snake := ⟨[⟨6, 5⟩, ⟨5, 5⟩, ⟨4, 5⟩], Direction.Right⟩
    speed := 0, score := 0 }

/-! ### Shared lemmas -/

theorem Snake.slither_length (s : Snake) : s.slither.body.length = s.body.length := by
  simp [Snake.slither]

theorem Snake.slither_direction (s : Snake) : s.slither.direction = s.direction := rfl

theorem Snake.grow_length (s : Snake) : s.grow.body.length = s.body.length + 1 := by
  simp [Snake.grow]

theorem Snake.grow_head (s : Snake) :
    s.grow.get_head_point = s.get_head_point.transform s.direction 1 := rfl

theorem Snake.slither_head (s : Snake) (h : s.body ≠ []) :
    s.slither.get_head_point = s.get_head_point.transform s.direction 1 := by
  obtain ⟨body, dir⟩ := s
  cases body with
  | nil => exact absurd rfl h
  | cons p t =>
    simp [Snake.slither, Snake.get_head_point]

theorem Snake.slither_body (s : Snake) (h : s.body ≠ []) :
    s.slither.body = s.get_head_point.transform s.direction 1 :: s.body.dropLast := by
  obtain ⟨body, dir⟩ := s
  cases body with
  | nil => exact absurd rfl h
  | cons p t =>
    simp [Snake.slither, Snake.get_head_point]

theorem processCommands_fst_body (b : Direction) (cmds : List Command) :
    ∀ s : Snake, (processCommands b s cmds).1.body = s.body := by
  induction cmds with
  | nil => intro s; rfl
  | cons c rest ih =>
    intro s
    cases c with
    | Quit => rfl
    | Turn t =>
      rw [processCommands, ih]
      split <;> rfl

theorem Game.place_food_sound (g : Game) (cands : List Point) (g' : Game)
    (h : g.place_food cands = some g') :
    ∃ p, p ∈ cands ∧ g' = { g with food := some p } ∧
      g.snake.contains_point p = false := by
  induction cands with
  | nil => simp [Game.place_food] at h
  | cons p rest ih =>
    rw [Game.place_food] at h
    by_cases hc : g.snake.contains_point p
    · rw [if_pos hc] at h
      obtain ⟨q, hq, rfl, hqc⟩ := ih h
      exact ⟨q, List.mem_cons_of_mem _ hq, rfl, hqc⟩
    · rw [if_neg hc] at h
      exact ⟨p, List.mem_cons_self _ _, (Option.some_inj.mp h).symm,
        Bool.eq_false_iff.mpr hc⟩

theorem Game.moveAndEat_eat_spec (g : Game) (cands : List Point) (g' : Game)
    (fp : Point) (hf : g.food = some fp)
    (hh : g.snake.slither.get_head_point = fp)
    (h : g.moveAndEat cands = some g') :
    g'.snake = g.snake.slither.grow ∧
    g'.score = g.score + 1 ∧
    g'.speed = (if (g.score + 1) % ((g.width * g.height) / MAX_SPEED) = 0
                then g.speed + 1 else g.speed) := by
  simp only [Game.moveAndEat, hf, hh, eq_self_iff_true, if_true] at h
  split at h
  · simp at h
  · next g4 hpf =>
    obtain ⟨p, -, rfl, -⟩ := Game.place_food_sound _ _ _ hpf
    obtain rfl := Option.some_inj.mp h.symm
    split <;> simp_all

theorem Game.moveAndEat_noeat_spec (g : Game) (cands : List Point) (g' : Game)
    (hne : ∀ fp, g.food = some fp → g.snake.slither.get_head_point ≠ fp)
    (h : g.moveAndEat cands = some g') :
    g' = { g with snake := g.snake.slither } := by
  rw [Game.moveAndEat] at h
  rcases hf : g.food with _ | fp
  · simp only [hf] at h
    exact (Option.some_inj.mp h).symm
  · simp only [hf, if_neg (hne fp hf)] at h
    exact (Option.some_inj.mp h).symm

theorem Game.moveAndEat_length (g : Game) (cands : List Point) (g' : Game)
    (h : g.moveAndEat cands = some g') :
    g.snake.body.length ≤ g'.snake.body.length := by
  by_cases heat : ∃ fp, g.food = some fp ∧ g.snake.slither.get_head_point = fp
  · obtain ⟨fp, hf, hh⟩ := heat
    obtain ⟨hs, -, -⟩ := Game.moveAndEat_eat_spec g cands g' fp hf hh h
    rw [hs, Snake.grow_length, Snake.slither_length]
    omega
  · have := Game.moveAndEat_noeat_spec g cands g'
      (fun fp hf hh => heat ⟨fp, hf, hh⟩) h
    rw [this]
    simp [Snake.slither_length]

theorem Game.tick_length (g : Game) (inp : TickInput) (g' : Game) (d : Bool)
    (h : g.tick inp = some (g', d)) :
    g.snake.body.length ≤ g'.snake.body.length := by
  rw [Game.tick] at h
  split at h
  · obtain ⟨rfl, -⟩ := Prod.mk.injEq .. ▸ Option.some_inj.mp h
    simp [processCommands_fst_body]
  · rw [Option.map_eq_some'] at h
    obtain ⟨g2, hg2, heq⟩ := h
    obtain ⟨rfl, -⟩ := Prod.mk.injEq .. ▸ heq
    have := Game.moveAndEat_length _ _ _ hg2
    simpa [processCommands_fst_body] using this

theorem reachable_length (g : Game) (h : Reachable g) :
    3 ≤ g.snake.body.length := by
  induction h with
  | start w hgt d cands g0 hpf =>
    obtain ⟨p, -, rfl, -⟩ := Game.place_food_sound _ _ _ hpf
    simp [Game.new, Snake.new]
  | tick g0 inp g1 d hr htick ih =>
    exact le_trans ih (Game.tick_length _ _ _ _ htick)

/-! ### Claims -/

/-- C6: `has_collided_with_wall` returns true if and only if the head sits
on the boundary edge in the direction of travel (Up with y = 0, Left with
x = 0, Right with x = width-1, Down with y = height-1); in particular a
snake heading Right with head (19,10) on a 20-wide board collides. -/
theorem claim_C6_theorem (g : Game) (_hw : 0 < g.width) (_hh : 0 < g.height) :
    (g.has_collided_with_wall = true ↔
      (g.snake.get_direction = Direction.Up ∧ g.snake.get_head_point.y = 0) ∨
      (g.snake.get_direction = Direction.Left ∧ g.snake.get_head_point.x = 0) ∨
      (g.snake.get_direction = Direction.Right ∧
        g.snake.get_head_point.x = g.width - 1) ∨
      (g.snake.get_direction = Direction.Down ∧
        g.snake.get_head_point.y = g.height - 1)) ∧
    gWall.has_collided_with_wall = true := by
  refine ⟨?_, by decide⟩
  unfold Game.has_collided_with_wall
  cases hd : g.snake.get_direction <;> simp [hd]

/-- Witness for C6 at the scenario state `gWall`. -/
theorem claim_C6_witness :
    (0 < gWall.width ∧ 0 < gWall.height) ∧
    ((gWall.has_collided_with_wall = true ↔
      (gWall.snake.get_direction = Direction.Up ∧ gWall.snake.get_head_point.y = 0) ∨
      (gWall.snake.get_direction = Direction.Left ∧ gWall.snake.get_head_point.x = 0) ∨
      (gWall.snake.get_direction = Direction.Right ∧
        gWall.snake.get_head_point.x = gWall.width - 1) ∨
      (gWall.snake.get_direction = Direction.Down ∧
        gWall.snake.get_head_point.y = gWall.height - 1)) ∧
    gWall.has_collided_with_wall = true) :=
  ⟨⟨by decide, by decide⟩, claim_C6_theorem gWall (by decide) (by decide)⟩

/-- C7: for every speed level `s ≤ MAX_SPEED`, `calculate_interval`
returns exactly `MIN_INTERVAL + ((MAX_INTERVAL - MIN_INTERVAL) / MAX_SPEED)
* (MAX_SPEED - s)` milliseconds, the result lies within [32, 128], speed 0
gives 128 and speed 8 gives 32. -/
theorem claim_C7_theorem (g : Game) (_h : g.speed ≤ MAX_SPEED) :
    g.calculate_interval
      = MIN_INTERVAL + ((MAX_INTERVAL - MIN_INTERVAL) / MAX_SPEED)
          * (MAX_SPEED - g.speed) ∧
    32 ≤ g.calculate_interval ∧ g.calculate_interval ≤ 128 ∧
    (g.speed = 0 → g.calculate_interval = 128) ∧
    (g.speed = MAX_SPEED → g.calculate_interval = 32) := by
  refine ⟨rfl, ?_, ?_, ?_, ?_⟩ <;>
    simp only [Game.calculate_interval, MAX_SPEED, MAX_INTERVAL, MIN_INTERVAL] <;>
    omega

/-- Witness for C7 at speed level 5 (interval 32 + 12·3 = 68 ms). -/
theorem claim_C7_witness :
    gSpeed5.speed ≤ MAX_SPEED ∧
    (gSpeed5.calculate_interval
      = MIN_INTERVAL + ((MAX_INTERVAL - MIN_INTERVAL) / MAX_SPEED)
          * (MAX_SPEED - gSpeed5.speed) ∧
    32 ≤ gSpeed5.calculate_interval ∧ gSpeed5.calculate_interval ≤ 128 ∧
    (gSpeed5.speed = 0 → gSpeed5.calculate_interval = 128) ∧
    (gSpeed5.speed = MAX_SPEED → gSpeed5.calculate_interval = 32)) :=
  ⟨by decide, claim_C7_theorem gSpeed5 (by decide)⟩

/-- C8: whenever `place_food` returns (here: whenever the RNG oracle, whose
candidates `gen_range` keeps inside [0,width)×[0,height), yields a point
before exhausting), the food is set to a point inside the board that no
snake body point occupies. -/
theorem claim_C8_theorem (g : Game) (cands : List Point) (g' : Game)
    (hr : ∀ c ∈ cands, c.x < g.width ∧ c.y < g.height)
    (h : g.place_food cands = some g') :
    ∃ p, g'.food = some p ∧ p.x < g.width ∧ p.y < g.height ∧
      g.snake.contains_point p = false ∧
      ∀ q ∈ g.snake.get_body_points, q ≠ p := by
  obtain ⟨p, hmem, rfl, hc⟩ := Game.place_food_sound g cands g' h
  refine ⟨p, rfl, (hr p hmem).1, (hr p hmem).2, hc, ?_⟩
  intro q hq hqp
  rw [Snake.contains_point, decide_eq_false_iff_not] at hc
  exact hc (hqp ▸ hq)

/-- Witness for C8: placing food on a fresh 20×20 game with oracle
`[(0,0)]`. -/
theorem claim_C8_witness :
    (∀ c ∈ [(⟨0, 0⟩ : Point)],
      c.x < (Game.new 20 20 Direction.Right).width ∧
      c.y < (Game.new 20 20 Direction.Right).height) ∧
    (Game.new 20 20 Direction.Right).place_food [⟨0, 0⟩] = some gStart ∧
    (∃ p, gStart.food = some p ∧
      p.x < (Game.new 20 20 Direction.Right).width ∧
      p.y < (Game.new 20 20 Direction.Right).height ∧
      (Game.new 20 20 Direction.Right).snake.contains_point p = false ∧
      ∀ q ∈ (Game.new 20 20 Direction.Right).snake.get_body_points, q ≠ p) :=
  ⟨by decide, by decide,
    claim_C8_theorem (Game.new 20 20 Direction.Right) [⟨0, 0⟩] gStart
      (by decide) (by decide)⟩

/-- C9: `slither` keeps the body length, makes the new head equal
`old_head.transform(old_direction, 1)` and shifts the body forward one cell
dropping the tail; scenario: a snake created at (10,10) with length 3
heading Right has body [(10,10),(9,10),(8,10)] and after one slither
[(11,10),(10,10),(9,10)]. -/
theorem claim_C9_theorem (s : Snake) (h : s.body ≠ []) :
    s.slither.body.length = s.body.length ∧
    s.slither.get_head_point
      = s.get_head_point.transform s.get_direction 1 ∧
    s.slither.body
      = s.get_head_point.transform s.get_direction 1 :: s.body.dropLast ∧
    (Snake.new ⟨10, 10⟩ 3 Direction.Right).body
      = [⟨10, 10⟩, ⟨9, 10⟩, ⟨8, 10⟩] ∧
    (Snake.new ⟨10, 10⟩ 3 Direction.Right).slither.body
      = [⟨11, 10⟩, ⟨10, 10⟩, ⟨9, 10⟩] :=
  ⟨Snake.slither_length s, Snake.slither_head s h, Snake.slither_body s h,
    by decide, by decide⟩

/-- Witness for C9 at the scenario snake. -/
theorem claim_C9_witness :
    (Snake.new ⟨10, 10⟩ 3 Direction.Right).body ≠ [] ∧
    ((Snake.new ⟨10, 10⟩ 3 Direction.Right).slither.body.length
        = (Snake.new ⟨10, 10⟩ 3 Direction.Right).body.length ∧
    (Snake.new ⟨10, 10⟩ 3 Direction.Right).slither.get_head_point
      = (Snake.new ⟨10, 10⟩ 3 Direction.Right).get_head_point.transform
          (Snake.new ⟨10, 10⟩ 3 Direction.Right).get_direction 1 ∧
    (Snake.new ⟨10, 10⟩ 3 Direction.Right).slither.body
      = (Snake.new ⟨10, 10⟩ 3 Direction.Right).get_head_point.transform
          (Snake.new ⟨10, 10⟩ 3 Direction.Right).get_direction 1
          :: (Snake.new ⟨10, 10⟩ 3 Direction.Right).body.dropLast ∧
    (Snake.new ⟨10, 10⟩ 3 Direction.Right).body
      = [⟨10, 10⟩, ⟨9, 10⟩, ⟨8, 10⟩] ∧
    (Snake.new ⟨10, 10⟩ 3 Direction.Right).slither.body
      = [⟨11, 10⟩, ⟨10, 10⟩, ⟨9, 10⟩]) :=
  ⟨by decide, claim_C9_theorem (Snake.new ⟨10, 10⟩ 3 Direction.Right) (by decide)⟩

theorem Direction.ne_opposite (d : Direction) : d ≠ d.opposite := by
  cases d <;> simp [Direction.opposite]

theorem processCommands_ne_opposite (b : Direction) (cmds : List Command) :
    ∀ s : Snake, s.direction ≠ b.opposite →
      (processCommands b s cmds).1.direction ≠ b.opposite := by
  induction cmds with
  | nil => intro s h; exact h
  | cons c rest ih =>
    intro s h
    cases c with
    | Quit => exact h
    | Turn t =>
      rw [processCommands]
      apply ih
      split
      · next hcond =>
        rw [Bool.and_eq_true, bne_iff_ne, bne_iff_ne] at hcond
        exact fun ht => hcond.2 (Eq.symm ht)
      · exact h

/-- C4: within one tick each `Turn(d)` is validated against the baseline
direction `D` recorded at tick start: it is consumed by setting the heading
to `d` precisely when `d ≠ D` and `d ≠ D.opposite()` and ignored otherwise,
the validation never looks at the already-mutated heading, and hence no
command sequence within one tick can turn the heading to the reversal of
the direction the tick started with. -/
theorem claim_C4_theorem :
    (∀ (D : Direction) (s : Snake) (t : Direction) (rest : List Command),
      processCommands D s (Command.Turn t :: rest)
        = processCommands D
            (if t ≠ D ∧ t ≠ D.opposite then s.set_direction t else s) rest) ∧
    (∀ (D : Direction) (s : Snake) (t : Direction),
      ((if t ≠ D ∧ t ≠ D.opposite then s.set_direction t else s).get_direction)
        = (if t ≠ D ∧ t ≠ D.opposite then t else s.get_direction)) ∧
    (∀ (s : Snake) (cmds : List Command),
      (processCommands s.get_direction s cmds).1.get_direction
        ≠ s.get_direction.opposite) := by
  refine ⟨?_, ?_, ?_⟩
  · intro D s t rest
    rw [processCommands]
    congr 1
    by_cases h1 : t = D
    · subst h1
      simp
    · by_cases h2 : t = D.opposite
      · subst h2
        simp [h1]
      · have hb : (D != t && D.opposite != t) = true := by
          rw [Bool.and_eq_true, bne_iff_ne, bne_iff_ne]
          exact ⟨Ne.symm h1, fun hh => h2 (Eq.symm hh)⟩
        rw [if_pos hb, if_pos ⟨h1, h2⟩]
  · intro D s t
    split <;> rfl
  · intro s cmds
    exact processCommands_ne_opposite s.get_direction cmds s
      (Direction.ne_opposite s.direction)

/-- C5: `has_bitten_itself` is true iff the would-be next head (the head
transformed one cell along the current direction) coincides with a body
segment at an index other than 0 (the head) and other than the last index
(the tail), for every snake of body length at least 2. -/
theorem claim_C5_theorem (g : Game) (h : 2 ≤ g.snake.get_body_points.length) :
    g.has_bitten_itself = true ↔
      ∃ i, 0 < i ∧ i + 1 < g.snake.get_body_points.length ∧
        g.snake.get_body_points[i]?
          = some (g.snake.get_head_point.transform g.snake.get_direction 1) := by
  simp only [Game.has_bitten_itself, decide_eq_true_eq]
  rw [List.eraseIdx_zero, List.eraseIdx_eq_take_drop_succ,
    show g.snake.get_body_points.length - 1 + 1
        = g.snake.get_body_points.length from by omega,
    List.drop_length, List.append_nil, List.mem_iff_getElem?]
  constructor
  · rintro ⟨j, hj⟩
    rw [List.getElem?_tail, List.getElem?_take] at hj
    split at hj
    · next hlt => exact ⟨j + 1, by omega, by omega, hj⟩
    · exact absurd hj (by simp)
  · rintro ⟨i, hi0, hin, hv⟩
    refine ⟨i - 1, ?_⟩
    rw [List.getElem?_tail, List.getElem?_take,
      show i - 1 + 1 = i from by omega, if_pos (by omega)]
    exact hv

/-- Witness for C5 at the concrete state `gWall` (length-3 body, no bite). -/
theorem claim_C5_witness :
    2 ≤ gWall.snake.get_body_points.length ∧
    (gWall.has_bitten_itself = true ↔
      ∃ i, 0 < i ∧ i + 1 < gWall.snake.get_body_points.length ∧
        gWall.snake.get_body_points[i]?
          = some (gWall.snake.get_head_point.transform gWall.snake.get_direction 1)) :=
  ⟨by decide, claim_C5_theorem gWall (by decide)⟩

/-- C1 counterexample: at `cexG1` (head (5,5) heading Right, food (6,5))
the tick with no input performs BOTH `slither` and `grow`: the new head is
(7,5), two cells ahead of the old head and not equal to the one-cell
advance (6,5) that the claim predicts, while length and score grow by 1. -/
theorem claim_C1_counterexample :
    cexG1.tick ⟨[], [⟨0, 0⟩]⟩ = some (cexG1eat, false) ∧
    cexG1eat.snake.get_head_point
      = (cexG1.snake.get_head_point.transform Direction.Right 1).transform
          Direction.Right 1 ∧
    cexG1eat.snake.get_head_point
      ≠ cexG1.snake.get_head_point.transform Direction.Right 1 ∧
    cexG1eat.snake.body.length = cexG1.snake.body.length + 1 ∧
    cexG1eat.score = cexG1.score + 1 := by
  refine ⟨by decide, by decide, by decide, by decide, by decide⟩

/-- C1 (amended): on a tick whose post-slither head equals the food
position, `slither()` and `grow()` are BOTH performed: the head advances
two cells in total (one by the slither, one more by the grow), the body
length increases by exactly 1 and the score is incremented by exactly 1. -/
theorem claim_C1_theorem (g : Game) (cands : List Point) (g' : Game)
    (fp : Point) (hne : g.snake.body ≠ []) (hf : g.food = some fp)
    (hh : g.snake.slither.get_head_point = fp)
    (h : g.moveAndEat cands = some g') :
    g'.snake.body.length = g.snake.body.length + 1 ∧
    g'.score = g.score + 1 ∧
    g'.snake.get_head_point
      = (g.snake.get_head_point.transform g.snake.get_direction 1).transform
          g.snake.get_direction 1 := by
  obtain ⟨hs, hsc, -⟩ := Game.moveAndEat_eat_spec g cands g' fp hf hh h
  refine ⟨by rw [hs, Snake.grow_length, Snake.slither_length], hsc, ?_⟩
  rw [hs, Snake.grow_head, Snake.slither_direction,
    Snake.slither_head g.snake hne]
  rfl

/-- Witness for C1 (amended) at the concrete food tick of `cexG1`. -/
theorem claim_C1_witness :
    (cexG1.snake.body ≠ [] ∧ cexG1.food = some ⟨6, 5⟩ ∧
     cexG1.snake.slither.get_head_point = ⟨6, 5⟩ ∧
     cexG1.moveAndEat [⟨0, 0⟩] = some cexG1eat) ∧
    (cexG1eat.snake.body.length = cexG1.snake.body.length + 1 ∧
     cexG1eat.score = cexG1.score + 1 ∧
     cexG1eat.snake.get_head_point
       = (cexG1.snake.get_head_point.transform cexG1.snake.get_direction
            1).transform cexG1.snake.get_direction 1) :=
  ⟨⟨by decide, by decide, by decide, by decide⟩,
    claim_C1_theorem cexG1 [⟨0, 0⟩] cexG1eat ⟨6, 5⟩
      (by decide) (by decide) (by decide) (by decide)⟩

/-- C2 counterexample: the speed increment of `src/game.rs` lines 92-94 is
not capped.  At `cexG2` (speed already `MAX_SPEED` = 8, score 49, board
20×20) the food tick raises the score to 50, a multiple of (20*20)/8 = 50,
and the speed to 9 > `MAX_SPEED`. -/
theorem claim_C2_counterexample :
    cexG2.speed = MAX_SPEED ∧
    cexG2.tick ⟨[], [⟨0, 0⟩]⟩ = some (cexG2eat, false) ∧
    cexG2eat.speed = 9 ∧ MAX_SPEED < cexG2eat.speed := by
  refine ⟨by decide, by decide, by decide, by decide⟩

/-- C2 (amended): on a food tick the speed increments by exactly 1 when
the incremented score is a multiple of `(width*height)/MAX_SPEED` and is
unchanged otherwise; the increment is unconditional — no cap at
`MAX_SPEED` is applied. -/
theorem claim_C2_theorem (g : Game) (cands : List Point) (g' : Game)
    (fp : Point) (hf : g.food = some fp)
    (hh : g.snake.slither.get_head_point = fp)
    (h : g.moveAndEat cands = some g') :
    g'.speed = (if (g.score + 1) % ((g.width * g.height) / MAX_SPEED) = 0
                then g.speed + 1 else g.speed) :=
  (Game.moveAndEat_eat_spec g cands g' fp hf hh h).2.2

/-- Witness for C2 (amended) at the concrete food tick of `cexG2`. -/
theorem claim_C2_witness :
    (cexG2.food = some ⟨6, 5⟩ ∧
     cexG2.snake.slither.get_head_point = ⟨6, 5⟩ ∧
     cexG2.moveAndEat [⟨0, 0⟩] = some cexG2eat) ∧
    cexG2eat.speed
      = (if (cexG2.score + 1) % ((cexG2.width * cexG2.height) / MAX_SPEED) = 0
         then cexG2.speed + 1 else cexG2.speed) :=
  ⟨⟨by decide, by decide, by decide⟩,
    claim_C2_theorem cexG2 [⟨0, 0⟩] cexG2eat ⟨6, 5⟩
      (by decide) (by decide) (by decide)⟩

/-- C3 counterexample: a tick of `cexG3` whose input window delivers only a
`Quit` still performs the tick's movement phase: the snake of the resulting
state has slithered (head (5,5) → (6,5)), so collision check, `slither` and
the redraw path of lines 81-99 are NOT skipped after a `Quit`. -/
theorem claim_C3_counterexample :
    cexG3.tick ⟨[Command.Quit], []⟩ = some (cexG3after, true) ∧
    cexG3after.snake ≠ cexG3.snake ∧
    cexG3after.snake = cexG3.snake.slither := by
  refine ⟨by decide, by decide, by decide⟩

/-- C3 (amended): a `Quit` ends the input-polling loop immediately (all
later commands of the window are discarded) and makes the tick report
`done`, but the current tick still runs the collision check and — absent a
collision — the `slither`/food/score phase before the outer loop
terminates. -/
theorem claim_C3_theorem (g : Game) (rest : List Command) (cands : List Point) :
    g.tick { commands := Command.Quit :: rest, foodCands := cands }
      = (if g.has_collided_with_wall || g.has_bitten_itself
         then some (g, true)
         else (g.moveAndEat cands).map (fun g2 => (g2, true))) := rfl

/-- C10: every reachable game state has a snake body of length at least 2
(in fact at least 3), so in `has_bitten_itself` the removal of the last
element and then of element 0 both index into a non-empty sequence. -/
theorem claim_C10_theorem (g : Game) (h : Reachable g) :
    2 ≤ g.snake.get_body_points.length ∧
    g.snake.get_body_points.length - 1 < g.snake.get_body_points.length ∧
    0 < ((g.snake.get_body_points).eraseIdx
          (g.snake.get_body_points.length - 1)).length := by
  have h3 := reachable_length g h
  rw [Snake.get_body_points, List.length_eraseIdx]
  constructor
  · omega
  · constructor
    · omega
    · rw [if_pos (by omega)]
      omega

/-- Witness for C10 at the freshly started game `gStart`. -/
theorem claim_C10_witness :
    Reachable gStart ∧
    (2 ≤ gStart.snake.get_body_points.length ∧
     gStart.snake.get_body_points.length - 1
        < gStart.snake.get_body_points.length ∧
     0 < ((gStart.snake.get_body_points).eraseIdx
          (gStart.snake.get_body_points.length - 1)).length) :=
  have hr : Reachable gStart :=
    Reachable.start 20 20 Direction.Right [⟨0, 0⟩] gStart (by decide)
  ⟨hr, claim_C10_theorem gStart hr⟩

end SnakeGame
